import Mathlib

/-
Verification of src/client-pwa/icons/create_icons.py.

The script draws three square PNG icon files ("ST" in white on a #667eea
background) using the PIL library.  We model the script as a state-passing
function over an abstract PIL environment `Env`: every library primitive that
can raise an exception in Python (Image.new, ImageFont.truetype,
ImageFont.load_default, Draw.textbbox, Draw.text, Image.save) is represented
by an environment field that either succeeds or reports an error, and glyph
rasterisation is an abstract coverage mask supplied by the environment.
The file system is a map from path to file content, and the console is a
list of printed lines.
-/

namespace CreateIcons

/-- An RGB color, one byte per channel. -/
structure Color where
  r : Nat
  g : Nat
  b : Nat
deriving DecidableEq, Repr

/-- The background color literal #667eea of the source. -/
def color667eea : Color := ⟨0x66, 0x7e, 0xea⟩

/-- The fill color literal white of the source. -/
def colorWhite : Color := ⟨0xff, 0xff, 0xff⟩

/-- An in-memory raster canvas: a mode string, dimensions, and the color at
each integer coordinate (coordinates outside the canvas are irrelevant). -/
structure Image where
  mode : String
  width : Nat
  height : Nat
  px : Int → Int → Color

/-- PIL Image.new(mode, (w, h), color): a canvas filled with one color. -/
def Image.new (mode : String) (w h : Nat) (c : Color) : Image :=
  ⟨mode, w, h, fun _ _ => c⟩

/-- A font handle, recording exactly the loading call the source makes:
ImageFont.truetype(path, fontSize), or ImageFont.load_default() which the
source calls with no size argument. -/
inductive FontSpec where
  | truetype (path : String) (fontSize : Nat)
  | loadDefault
deriving DecidableEq, Repr

/-- The point size the program requested for a font handle.  The source
passes a size to ImageFont.truetype but calls ImageFont.load_default() with
no size argument, so for the default font no point size is determined by
the program (it is the own default of the library). -/
def FontSpec.pointSize : FontSpec → Option Nat
  | .truetype _ s => some s
  | .loadDefault => none

/-- A text bounding box as returned by PIL draw.textbbox:
(left, top, right, bottom). -/
structure BBox where
  left : Int
  top : Int
  right : Int
  bottom : Int
deriving DecidableEq, Repr

/-- An error raised by a library call (a Python exception, abstracted to a
message). -/
abbrev Err := String

/-- The abstract PIL environment.  Each fallible primitive either succeeds
or yields the error it raises; `mask` is the glyph coverage of a rendered
text relative to the draw anchor. -/
structure Env where
  newImageErr : Nat → Option Err
  truetypeRes : String → Nat → Except Err Unit
  loadDefaultErr : Option Err
  textbboxRes : String → FontSpec → Except Err BBox
  drawErr : Option Err
  saveErr : String → Option Err
  mask : String → FontSpec → Int → Int → Bool

/-- PIL draw.text((x, y), text, fill, font): every pixel covered by the
glyph mask (relative to the anchor (x, y)) takes the fill color, all other
pixels keep their color. -/
def ImageDraw.text (env : Env) (img : Image) (x y : Int) (t : String)
    (fill : Color) (font : FontSpec) : Image :=
  { img with px := fun i j => if env.mask t font (i - x) (j - y) then fill else img.px i j }

/-- The font path literal of the source. -/
def arialPath : String := "/System/Library/Fonts/Arial.ttf"

/-- Lines 12-17 of the source: try to load Arial at max(size // 3, 12);
on any exception, set font_size = max(size // 4, 10) (a local variable the
source never uses afterwards) and call ImageFont.load_default() with no
size argument.  An exception raised by load_default itself is not caught.
Returns the font handle together with the final value of the local
font_size variable. -/
def fontSelect (env : Env) (size : Nat) : Except Err (FontSpec × Nat) :=
  match env.truetypeRes arialPath (max (size / 3) 12) with
  | .ok _ => .ok (.truetype arialPath (max (size / 3) 12), max (size / 3) 12)
  | .error _ =>
    match env.loadDefaultErr with
    | some e => .error e
    | none => .ok (.loadDefault, max (size / 4) 10)

/-- Lines 25-26 of the source: x = (size - text_width) // 2,
y = (size - text_height) // 2, with Python floor division. -/
def drawOffset (size : Nat) (bbox : BBox) : Int × Int :=
  (((size : Int) - (bbox.right - bbox.left)).fdiv 2,
   ((size : Int) - (bbox.bottom - bbox.top)).fdiv 2)

/-- A file on disk: the encoding format passed to img.save and the image
content. -/
structure File where
  format : String
  image : Image

/-- The observable state: the file system (path to file content) and the
console transcript. -/
structure S where
  fs : String → Option File
  console : List String

/-- Writing a file: the map sends the written path to the new content and
leaves every other path unchanged. -/
def setFile (fn : String) (f : File) (fs : String → Option File) : String → Option File :=
  fun k => if k = fn then some f else fs k

/-- The confirmation line printed by create_icon. -/
def createdLine (filename : String) (size : Nat) : String :=
  "Created " ++ filename ++ " (" ++ toString size ++ "x" ++ toString size ++ ")"

/-- The canvas create_icon saves: the fresh #667eea background with "ST"
drawn in white at the computed centering offset. -/
def iconImage (env : Env) (size : Nat) (font : FontSpec) (bbox : BBox) : Image :=
  ImageDraw.text env (Image.new "RGB" size size color667eea)
    (drawOffset size bbox).1 (drawOffset size bbox).2 "ST" colorWhite font

/-- Lines 6-33 of the source, create_icon(size, filename): build the canvas,
select the font (the only guarded step), measure the "ST" bounding box,
compute the centering offset, draw, save, print.  An uncaught exception at
any step aborts the call with the state unchanged; the Python function has
no return statement, so the success value is the unit value (None). -/
def create_icon (env : Env) (size : Nat) (filename : String) (s : S) :
    Except Err Unit × S :=
  match env.newImageErr size with
  | some e => (.error e, s)
  | none =>
    let img := Image.new "RGB" size size color667eea
    match fontSelect env size with
    | .error e => (.error e, s)
    | .ok (font, _font_size) =>
      match env.textbboxRes "ST" font with
      | .error e => (.error e, s)
      | .ok bbox =>
        match env.drawErr with
        | some e => (.error e, s)
        | none =>
          let xy := drawOffset size bbox
          let img2 := ImageDraw.text env img xy.1 xy.2 "ST" colorWhite font
          match env.saveErr filename with
          | some e => (.error e, s)
          | none =>
            (.ok ⟨⟩,
             { fs := setFile filename ⟨"PNG", img2⟩ s.fs,
               console := s.console ++ [createdLine filename size] })

/-- The argument list of the three create_icon calls at lines 35-37. -/
def icons : List (Nat × String) :=
  [(144, "icon-144x144.png"), (32, "icon-32x32.png"), (16, "icon-16x16.png")]

/-- Run a list of create_icon calls in order, stopping at the first
uncaught exception. -/
def runCalls (env : Env) : List (Nat × String) → S → Except Err Unit × S
  | [], s => (.ok ⟨⟩, s)
  | c :: rest, s =>
    match create_icon env c.1 c.2 s with
    | (.error e, s1) => (.error e, s1)
    | (.ok _, s1) => runCalls env rest s1

/-- Lines 35-39 of the source: the whole script.  The three create_icon
calls run in order, then the summary line is printed; an uncaught
exception terminates the script before the summary. -/
def runScript (env : Env) (s : S) : Except Err Unit × S :=
  match runCalls env icons s with
  | (.error e, s1) => (.error e, s1)
  | (.ok _, s1) =>
    (.ok ⟨⟩, { s1 with console := s1.console ++ ["All icons created successfully!"] })

/-- The four lines a successful run prints, in order. -/
def scriptLines : List String :=
  [createdLine "icon-144x144.png" 144, createdLine "icon-32x32.png" 32,
   createdLine "icon-16x16.png" 16, "All icons created successfully!"]

/-- The ink rectangle of text drawn at anchor (x, y): PIL places the glyphs
of a text whose bounding box measured at the origin is bbox inside that box
translated by the anchor. -/
def inkBox (x y : Int) (bbox : BBox) : BBox :=
  ⟨x + bbox.left, y + bbox.top, x + bbox.right, y + bbox.bottom⟩

/-- An environment in which every library call succeeds: Arial loads, the
"ST" bounding box is (0, 0, 10, 8), and the glyph mask covers exactly that
box. -/
def okEnv : Env where
  newImageErr := fun _ => none
  truetypeRes := fun _ _ => .ok ()
  loadDefaultErr := none
  textbboxRes := fun _ _ => .ok ⟨0, 0, 10, 8⟩
  drawErr := none
  saveErr := fun _ => none
  mask := fun _ _ i j => decide (0 ≤ i ∧ i < 10 ∧ 0 ≤ j ∧ j < 8)

/-- An environment in which loading Arial raises (the font file is absent)
and everything else succeeds. -/
def fontFailEnv : Env :=
  { okEnv with truetypeRes := fun _ _ => .error "cannot open resource" }

/-- An environment in which the save step raises (unwritable path) and
everything else succeeds. -/
def saveFailEnv : Env :=
  { okEnv with saveErr := fun _ => some "permission denied" }

/-- An environment in which measuring the text bounding box raises and
everything else succeeds. -/
def bboxFailEnv : Env :=
  { okEnv with textbboxRes := fun _ _ => .error "invalid font metrics" }

/-- The empty initial state: no files, empty console. -/
def s0 : S := ⟨fun _ => none, []⟩

/-- What the spec promises of one output file: a PNG, a square RGB canvas
of the requested size, white exactly on the glyph mask placed at the
centering offset and the background color #667eea everywhere else. -/
def IsIconFile (env : Env) (size : Nat) (font : FontSpec) (bbox : BBox) (f : File) : Prop :=
  f.format = "PNG" ∧ f.image.mode = "RGB" ∧ f.image.width = size ∧ f.image.height = size ∧
  (∀ i j : Int,
     env.mask "ST" font (i - (drawOffset size bbox).1) (j - (drawOffset size bbox).2) = true →
     f.image.px i j = colorWhite) ∧
  (∀ i j : Int,
     env.mask "ST" font (i - (drawOffset size bbox).1) (j - (drawOffset size bbox).2) = false →
     f.image.px i j = color667eea)

/-- create_icon on a fully successful path: the canonical success equation.
The font hypothesis covers both the Arial branch and the fallback branch. -/
theorem create_icon_ok (env : Env) (size : Nat) (filename : String)
    (font : FontSpec) (fsz : Nat) (bbox : BBox)
    (hn : env.newImageErr size = none)
    (hf : fontSelect env size = .ok (font, fsz))
    (hb : env.textbboxRes "ST" font = .ok bbox)
    (hd : env.drawErr = none)
    (hs : env.saveErr filename = none) (s : S) :
    create_icon env size filename s =
      (.ok ⟨⟩,
       { fs := setFile filename ⟨"PNG", iconImage env size font bbox⟩ s.fs,
         console := s.console ++ [createdLine filename size] }) := by
  simp only [create_icon, hn, hf, hb, hd, hs, iconImage]

/-- C2 counterexample: with Arial unavailable at size 144, the fallback
branch binds the local font_size variable to max(144 // 4, 10) = 36, but the
font it actually uses is ImageFont.load_default() called with no size
argument, whose program-requested point size is therefore not 36 (it is the
default of the library, undetermined by the program).  So the claim that the
fallback uses the default font at point size max(size // 4, 10) is false. -/
theorem C2_counterexample :
    fontSelect fontFailEnv 144 = .ok (FontSpec.loadDefault, 36) ∧
    FontSpec.pointSize FontSpec.loadDefault ≠ some (max (144 / 4) 10) := by
  constructor
  · rfl
  · simp [FontSpec.pointSize]

/-- C2 (amended): create_icon first attempts to load the preferred system
font at point size max(size // 3, 12); if that load fails, it computes
max(size // 4, 10) into a local font_size variable but calls
ImageFont.load_default() with no size argument, so the default font is used
at the point size the library itself chooses, not at max(size // 4, 10). -/
theorem C2_font_fallback_policy (env : Env) (size : Nat) :
    (env.truetypeRes arialPath (max (size / 3) 12) = .ok () →
      fontSelect env size =
        .ok (.truetype arialPath (max (size / 3) 12), max (size / 3) 12)) ∧
    (∀ e, env.truetypeRes arialPath (max (size / 3) 12) = .error e →
      env.loadDefaultErr = none →
      fontSelect env size = .ok (.loadDefault, max (size / 4) 10) ∧
      FontSpec.pointSize FontSpec.loadDefault = none) := by
  refine ⟨fun h => ?_, fun e he hl => ⟨?_, rfl⟩⟩ <;> simp [fontSelect, *]

/-- C2 witness: the fallback branch at size 144 in the environment where
Arial fails to load. -/
theorem C2_font_fallback_policy_witness :
    fontSelect fontFailEnv 144 = .ok (.loadDefault, 36) ∧
    FontSpec.pointSize FontSpec.loadDefault = none :=
  (C2_font_fallback_policy fontFailEnv 144).2 "cannot open resource" rfl rfl

/-- C3: on a successful run, create_icon measures the "ST" bounding box with
the selected font, takes text_width = bbox right minus left and
text_height = bbox bottom minus top, and draws the text at
x = (size - text_width) // 2, y = (size - text_height) // 2 (Python floor
division), with no further alignment correction: the saved image is exactly
the fresh canvas with the text drawn at that offset. -/
theorem C3_centering (env : Env) (size : Nat) (filename : String) (s : S)
    (font : FontSpec) (fsz : Nat) (bbox : BBox)
    (hn : env.newImageErr size = none)
    (hf : fontSelect env size = .ok (font, fsz))
    (hb : env.textbboxRes "ST" font = .ok bbox)
    (hd : env.drawErr = none)
    (hs : env.saveErr filename = none) :
    create_icon env size filename s =
      (.ok ⟨⟩,
       { fs := setFile filename
           ⟨"PNG",
            ImageDraw.text env (Image.new "RGB" size size color667eea)
              (((size : Int) - (bbox.right - bbox.left)).fdiv 2)
              (((size : Int) - (bbox.bottom - bbox.top)).fdiv 2)
              "ST" colorWhite font⟩ s.fs,
         console := s.console ++ [createdLine filename size] }) := by
  rw [create_icon_ok env size filename font fsz bbox hn hf hb hd hs s]
  rfl

/-- C3 witness: the fully successful environment at size 144, where the
measured box is (0, 0, 10, 8) and the draw offset is (67, 68). -/
theorem C3_centering_witness :
    create_icon okEnv 144 "icon-144x144.png" s0 =
      (.ok ⟨⟩,
       { fs := setFile "icon-144x144.png"
           ⟨"PNG",
            ImageDraw.text okEnv (Image.new "RGB" 144 144 color667eea)
              (((144 : Int) - (10 - 0)).fdiv 2)
              (((144 : Int) - (8 - 0)).fdiv 2)
              "ST" colorWhite (.truetype arialPath 48)⟩ s0.fs,
         console := s0.console ++ [createdLine "icon-144x144.png" 144] }) :=
  C3_centering okEnv 144 "icon-144x144.png" s0 (.truetype arialPath 48) 48
    ⟨0, 0, 10, 8⟩ rfl rfl rfl rfl rfl

/-- C8: create_icon returns no value; when it does not raise, its result is
precisely the unit value (None in Python, as the function body has no
return statement). -/
theorem C8_no_return_value (env : Env) (size : Nat) (filename : String) (s : S) :
    (create_icon env size filename s).1 = .ok () ∨
      ∃ e, (create_icon env size filename s).1 = .error e := by
  rcases h : (create_icon env size filename s).1 with e | u
  · exact Or.inr ⟨e, rfl⟩
  · cases u
    exact Or.inl rfl

/-- C9: the save of the output file is the only file-system effect of
create_icon (no path other than filename is ever touched), and when any
unhandled error occurs before the save step (canvas creation, font
handling, measurement, drawing) the whole state, in particular the file at
filename, is unchanged. -/
theorem C9_no_partial_effects (env : Env) (size : Nat) (filename : String) (s : S) :
    (∀ k, k ≠ filename → ((create_icon env size filename s).2).fs k = s.fs k) ∧
    (env.saveErr filename = none →
      ∀ e, (create_icon env size filename s).1 = .error e →
        (create_icon env size filename s).2 = s) := by
  rcases hn : env.newImageErr size with _ | e1
  · rcases hf : fontSelect env size with e2 | ⟨font, fsz⟩
    · simp [create_icon, hn, hf]
    · rcases hb : env.textbboxRes "ST" font with e3 | bbox
      · simp [create_icon, hn, hf, hb]
      · rcases hd : env.drawErr with _ | e4
        · rcases hs : env.saveErr filename with _ | e5
          · refine ⟨fun k hk => ?_, fun hsv e h => ?_⟩
            · simp [create_icon, hn, hf, hb, hd, hs, setFile, hk]
            · simp [create_icon, hn, hf, hb, hd, hs] at h
          · refine ⟨fun k hk => ?_, fun hsv e h => ?_⟩
            · simp [create_icon, hn, hf, hb, hd, hs]
            · exact Option.noConfusion hsv
        · simp [create_icon, hn, hf, hb, hd]
  · simp [create_icon, hn]

/-- C9 witness: in the environment where measuring the bounding box raises
and the save would succeed, create_icon fails and leaves the state exactly
as it was. -/
theorem C9_no_partial_effects_witness :
    (create_icon bboxFailEnv 144 "icon-144x144.png" s0).2 = s0 ∧
    (create_icon bboxFailEnv 144 "icon-144x144.png" s0).1 =
      .error "invalid font metrics" :=
  ⟨(C9_no_partial_effects bboxFailEnv 144 "icon-144x144.png" s0).2 rfl
     "invalid font metrics" rfl, rfl⟩

/-- C4: font loading is the only guarded operation in create_icon.  If the
preferred font fails to load, the error is swallowed and the call still
succeeds (given the remaining steps succeed); an error raised during canvas
creation, by load_default itself inside the handler, during measurement,
drawing, or saving is not caught: it propagates to the caller with the
state unchanged. -/
theorem C4_only_font_guarded (env : Env) (size : Nat) (filename : String) (s : S) :
    (∀ e, env.truetypeRes arialPath (max (size / 3) 12) = .error e →
       env.loadDefaultErr = none →
       env.newImageErr size = none →
       ∀ bbox, env.textbboxRes "ST" FontSpec.loadDefault = .ok bbox →
       env.drawErr = none → env.saveErr filename = none →
       (create_icon env size filename s).1 = .ok ()) ∧
    (∀ e, env.newImageErr size = some e →
       create_icon env size filename s = (.error e, s)) ∧
    (∀ e1 e2, env.newImageErr size = none →
       env.truetypeRes arialPath (max (size / 3) 12) = .error e1 →
       env.loadDefaultErr = some e2 →
       create_icon env size filename s = (.error e2, s)) ∧
    (∀ font fsz e, env.newImageErr size = none →
       fontSelect env size = .ok (font, fsz) →
       env.textbboxRes "ST" font = .error e →
       create_icon env size filename s = (.error e, s)) ∧
    (∀ font fsz bbox e, env.newImageErr size = none →
       fontSelect env size = .ok (font, fsz) →
       env.textbboxRes "ST" font = .ok bbox →
       env.drawErr = some e →
       create_icon env size filename s = (.error e, s)) ∧
    (∀ font fsz bbox e, env.newImageErr size = none →
       fontSelect env size = .ok (font, fsz) →
       env.textbboxRes "ST" font = .ok bbox →
       env.drawErr = none → env.saveErr filename = some e →
       create_icon env size filename s = (.error e, s)) := by
  refine ⟨fun e ht hl hn bbox hb hd hs => ?_,
          fun e hn => ?_,
          fun e1 e2 hn ht hl => ?_,
          fun font fsz e hn hf hb => ?_,
          fun font fsz bbox e hn hf hb hd => ?_,
          fun font fsz bbox e hn hf hb hd hs => ?_⟩
  · have hf : fontSelect env size = .ok (.loadDefault, max (size / 4) 10) := by
      simp [fontSelect, ht, hl]
    simp [create_icon, hn, hf, hb, hd, hs]
  · simp [create_icon, hn]
  · have hf : fontSelect env size = .error e2 := by
      simp [fontSelect, ht, hl]
    simp [create_icon, hn, hf]
  · simp [create_icon, hn, hf, hb]
  · simp [create_icon, hn, hf, hb, hd]
  · simp [create_icon, hn, hf, hb, hd, hs]

/-- C4 witness: with Arial unavailable the run still succeeds; with an
unwritable output path the save error propagates and the state is
untouched. -/
theorem C4_only_font_guarded_witness :
    (create_icon fontFailEnv 144 "icon-144x144.png" s0).1 = .ok () ∧
    create_icon saveFailEnv 144 "icon-144x144.png" s0 =
      (.error "permission denied", s0) :=
  ⟨(C4_only_font_guarded fontFailEnv 144 "icon-144x144.png" s0).1
     "cannot open resource" rfl rfl rfl ⟨0, 0, 10, 8⟩ rfl rfl rfl,
   (C4_only_font_guarded saveFailEnv 144 "icon-144x144.png" s0).2.2.2.2.2
     (.truetype arialPath 48) 48 ⟨0, 0, 10, 8⟩ "permission denied"
     rfl rfl rfl rfl rfl⟩

/-- The canonical success equation of the whole script: each of the three
files is written with its icon image, and the four lines are printed in
order. -/
theorem runScript_ok (env : Env)
    (font144 font32 font16 : FontSpec) (z144 z32 z16 : Nat)
    (bb144 bb32 bb16 : BBox)
    (hn144 : env.newImageErr 144 = none)
    (hn32 : env.newImageErr 32 = none)
    (hn16 : env.newImageErr 16 = none)
    (hf144 : fontSelect env 144 = .ok (font144, z144))
    (hf32 : fontSelect env 32 = .ok (font32, z32))
    (hf16 : fontSelect env 16 = .ok (font16, z16))
    (hb144 : env.textbboxRes "ST" font144 = .ok bb144)
    (hb32 : env.textbboxRes "ST" font32 = .ok bb32)
    (hb16 : env.textbboxRes "ST" font16 = .ok bb16)
    (hd : env.drawErr = none)
    (hs144 : env.saveErr "icon-144x144.png" = none)
    (hs32 : env.saveErr "icon-32x32.png" = none)
    (hs16 : env.saveErr "icon-16x16.png" = none) (s : S) :
    runScript env s =
      (.ok ⟨⟩,
       { fs := setFile "icon-16x16.png" ⟨"PNG", iconImage env 16 font16 bb16⟩
                 (setFile "icon-32x32.png" ⟨"PNG", iconImage env 32 font32 bb32⟩
                   (setFile "icon-144x144.png" ⟨"PNG", iconImage env 144 font144 bb144⟩
                     s.fs)),
         console := s.console ++ scriptLines }) := by
  simp only [runScript, icons, runCalls,
    create_icon_ok env 144 "icon-144x144.png" font144 z144 bb144 hn144 hf144 hb144 hd hs144,
    create_icon_ok env 32 "icon-32x32.png" font32 z32 bb32 hn32 hf32 hb32 hd hs32,
    create_icon_ok env 16 "icon-16x16.png" font16 z16 bb16 hn16 hf16 hb16 hd hs16]
  simp [scriptLines]

/-- The file create_icon saves satisfies the per-file icon contract. -/
theorem iconImage_spec (env : Env) (size : Nat) (font : FontSpec) (bbox : BBox) :
    IsIconFile env size font bbox ⟨"PNG", iconImage env size font bbox⟩ := by
  refine ⟨rfl, rfl, rfl, rfl, fun i j h => ?_, fun i j h => ?_⟩ <;>
    simp [iconImage, ImageDraw.text, Image.new, h]

/-- C1: starting from a directory with none of the files, a successful run
of the script creates exactly the three files icon-144x144.png,
icon-32x32.png and icon-16x16.png and no other, each a square RGB PNG of
the requested size (144, 32, 16) whose pixels are the background color
#667eea except for the white "ST" glyphs. -/
theorem C1_three_icon_files (env : Env)
    (font144 font32 font16 : FontSpec) (z144 z32 z16 : Nat)
    (bb144 bb32 bb16 : BBox)
    (hn144 : env.newImageErr 144 = none)
    (hn32 : env.newImageErr 32 = none)
    (hn16 : env.newImageErr 16 = none)
    (hf144 : fontSelect env 144 = .ok (font144, z144))
    (hf32 : fontSelect env 32 = .ok (font32, z32))
    (hf16 : fontSelect env 16 = .ok (font16, z16))
    (hb144 : env.textbboxRes "ST" font144 = .ok bb144)
    (hb32 : env.textbboxRes "ST" font32 = .ok bb32)
    (hb16 : env.textbboxRes "ST" font16 = .ok bb16)
    (hd : env.drawErr = none)
    (hs144 : env.saveErr "icon-144x144.png" = none)
    (hs32 : env.saveErr "icon-32x32.png" = none)
    (hs16 : env.saveErr "icon-16x16.png" = none)
    (s : S) (hempty : ∀ n, s.fs n = none) :
    (runScript env s).1 = .ok () ∧
    (∀ k, k ≠ "icon-144x144.png" → k ≠ "icon-32x32.png" → k ≠ "icon-16x16.png" →
       (runScript env s).2.fs k = none) ∧
    (runScript env s).2.fs "icon-144x144.png" =
      some ⟨"PNG", iconImage env 144 font144 bb144⟩ ∧
    (runScript env s).2.fs "icon-32x32.png" =
      some ⟨"PNG", iconImage env 32 font32 bb32⟩ ∧
    (runScript env s).2.fs "icon-16x16.png" =
      some ⟨"PNG", iconImage env 16 font16 bb16⟩ ∧
    IsIconFile env 144 font144 bb144 ⟨"PNG", iconImage env 144 font144 bb144⟩ ∧
    IsIconFile env 32 font32 bb32 ⟨"PNG", iconImage env 32 font32 bb32⟩ ∧
    IsIconFile env 16 font16 bb16 ⟨"PNG", iconImage env 16 font16 bb16⟩ := by
  rw [runScript_ok env font144 font32 font16 z144 z32 z16 bb144 bb32 bb16
    hn144 hn32 hn16 hf144 hf32 hf16 hb144 hb32 hb16 hd hs144 hs32 hs16 s]
  refine ⟨rfl, fun k h1 h2 h3 => ?_, ?_, ?_, ?_,
    iconImage_spec env 144 font144 bb144, iconImage_spec env 32 font32 bb32,
    iconImage_spec env 16 font16 bb16⟩
  · simp [setFile, h1, h2, h3, hempty k]
  · simp [setFile]
  · simp [setFile]
  · simp [setFile]

/-- C1 witness: the fully successful environment on the empty directory. -/
theorem C1_three_icon_files_witness :
    (runScript okEnv s0).1 = .ok () ∧
    (∀ k, k ≠ "icon-144x144.png" → k ≠ "icon-32x32.png" → k ≠ "icon-16x16.png" →
       (runScript okEnv s0).2.fs k = none) ∧
    (runScript okEnv s0).2.fs "icon-144x144.png" =
      some ⟨"PNG", iconImage okEnv 144 (.truetype arialPath 48) ⟨0, 0, 10, 8⟩⟩ ∧
    (runScript okEnv s0).2.fs "icon-32x32.png" =
      some ⟨"PNG", iconImage okEnv 32 (.truetype arialPath 12) ⟨0, 0, 10, 8⟩⟩ ∧
    (runScript okEnv s0).2.fs "icon-16x16.png" =
      some ⟨"PNG", iconImage okEnv 16 (.truetype arialPath 12) ⟨0, 0, 10, 8⟩⟩ ∧
    IsIconFile okEnv 144 (.truetype arialPath 48) ⟨0, 0, 10, 8⟩
      ⟨"PNG", iconImage okEnv 144 (.truetype arialPath 48) ⟨0, 0, 10, 8⟩⟩ ∧
    IsIconFile okEnv 32 (.truetype arialPath 12) ⟨0, 0, 10, 8⟩
      ⟨"PNG", iconImage okEnv 32 (.truetype arialPath 12) ⟨0, 0, 10, 8⟩⟩ ∧
    IsIconFile okEnv 16 (.truetype arialPath 12) ⟨0, 0, 10, 8⟩
      ⟨"PNG", iconImage okEnv 16 (.truetype arialPath 12) ⟨0, 0, 10, 8⟩⟩ :=
  C1_three_icon_files okEnv (.truetype arialPath 48) (.truetype arialPath 12)
    (.truetype arialPath 12) 48 12 12 ⟨0, 0, 10, 8⟩ ⟨0, 0, 10, 8⟩ ⟨0, 0, 10, 8⟩
    rfl rfl rfl rfl rfl rfl rfl rfl rfl rfl rfl rfl rfl s0 (fun _ => rfl)

/-- C5: a second run of the script is observably the same as the first:
it succeeds again, leaves the very same file-system contents (the same
three files, identical content), and prints the same four lines again; no
state accumulates across runs. -/
theorem C5_idempotent (env : Env)
    (font144 font32 font16 : FontSpec) (z144 z32 z16 : Nat)
    (bb144 bb32 bb16 : BBox)
    (hn144 : env.newImageErr 144 = none)
    (hn32 : env.newImageErr 32 = none)
    (hn16 : env.newImageErr 16 = none)
    (hf144 : fontSelect env 144 = .ok (font144, z144))
    (hf32 : fontSelect env 32 = .ok (font32, z32))
    (hf16 : fontSelect env 16 = .ok (font16, z16))
    (hb144 : env.textbboxRes "ST" font144 = .ok bb144)
    (hb32 : env.textbboxRes "ST" font32 = .ok bb32)
    (hb16 : env.textbboxRes "ST" font16 = .ok bb16)
    (hd : env.drawErr = none)
    (hs144 : env.saveErr "icon-144x144.png" = none)
    (hs32 : env.saveErr "icon-32x32.png" = none)
    (hs16 : env.saveErr "icon-16x16.png" = none) (s : S) :
    (runScript env s).1 = .ok () ∧
    (runScript env (runScript env s).2).1 = .ok () ∧
    (runScript env (runScript env s).2).2.fs = (runScript env s).2.fs ∧
    (runScript env s).2.console = s.console ++ scriptLines ∧
    (runScript env (runScript env s).2).2.console =
      (runScript env s).2.console ++ scriptLines := by
  simp only [runScript_ok env font144 font32 font16 z144 z32 z16 bb144 bb32 bb16
    hn144 hn32 hn16 hf144 hf32 hf16 hb144 hb32 hb16 hd hs144 hs32 hs16]
  refine ⟨by trivial, by trivial, ?_, by trivial, by trivial⟩
  funext k
  by_cases h16 : k = "icon-16x16.png"
  · simp [setFile, h16]
  · by_cases h32 : k = "icon-32x32.png"
    · simp [setFile, h16, h32]
    · by_cases h144 : k = "icon-144x144.png" <;> simp [setFile, h16, h32, h144]

/-- C5 witness: two runs in the fully successful environment from the
empty directory. -/
theorem C5_idempotent_witness :
    (runScript okEnv s0).1 = .ok () ∧
    (runScript okEnv (runScript okEnv s0).2).1 = .ok () ∧
    (runScript okEnv (runScript okEnv s0).2).2.fs = (runScript okEnv s0).2.fs ∧
    (runScript okEnv s0).2.console = s0.console ++ scriptLines ∧
    (runScript okEnv (runScript okEnv s0).2).2.console =
      (runScript okEnv s0).2.console ++ scriptLines :=
  C5_idempotent okEnv (.truetype arialPath 48) (.truetype arialPath 12)
    (.truetype arialPath 12) 48 12 12 ⟨0, 0, 10, 8⟩ ⟨0, 0, 10, 8⟩ ⟨0, 0, 10, 8⟩
    rfl rfl rfl rfl rfl rfl rfl rfl rfl rfl rfl rfl rfl s0

/-- C6: a successful run prints exactly four lines: one confirmation line
per created file, in creation order, followed by the final summary line. -/
theorem C6_console_lines (env : Env)
    (font144 font32 font16 : FontSpec) (z144 z32 z16 : Nat)
    (bb144 bb32 bb16 : BBox)
    (hn144 : env.newImageErr 144 = none)
    (hn32 : env.newImageErr 32 = none)
    (hn16 : env.newImageErr 16 = none)
    (hf144 : fontSelect env 144 = .ok (font144, z144))
    (hf32 : fontSelect env 32 = .ok (font32, z32))
    (hf16 : fontSelect env 16 = .ok (font16, z16))
    (hb144 : env.textbboxRes "ST" font144 = .ok bb144)
    (hb32 : env.textbboxRes "ST" font32 = .ok bb32)
    (hb16 : env.textbboxRes "ST" font16 = .ok bb16)
    (hd : env.drawErr = none)
    (hs144 : env.saveErr "icon-144x144.png" = none)
    (hs32 : env.saveErr "icon-32x32.png" = none)
    (hs16 : env.saveErr "icon-16x16.png" = none) (s : S) :
    (runScript env s).1 = .ok () ∧
    (runScript env s).2.console =
      s.console ++
        ["Created icon-144x144.png (144x144)", "Created icon-32x32.png (32x32)",
         "Created icon-16x16.png (16x16)", "All icons created successfully!"] := by
  rw [runScript_ok env font144 font32 font16 z144 z32 z16 bb144 bb32 bb16
    hn144 hn32 hn16 hf144 hf32 hf16 hb144 hb32 hb16 hd hs144 hs32 hs16 s]
  exact ⟨rfl, rfl⟩

/-- C6 witness: the fully successful environment from the empty state. -/
theorem C6_console_lines_witness :
    (runScript okEnv s0).1 = .ok () ∧
    (runScript okEnv s0).2.console =
      s0.console ++
        ["Created icon-144x144.png (144x144)", "Created icon-32x32.png (32x32)",
         "Created icon-16x16.png (16x16)", "All icons created successfully!"] :=
  C6_console_lines okEnv (.truetype arialPath 48) (.truetype arialPath 12)
    (.truetype arialPath 12) 48 12 12 ⟨0, 0, 10, 8⟩ ⟨0, 0, 10, 8⟩ ⟨0, 0, 10, 8⟩
    rfl rfl rfl rfl rfl rfl rfl rfl rfl rfl rfl rfl rfl s0

/-- C7: the three create_icon invocations share no state.  Executed in any
permutation of the source order, they all succeed and produce the same
file-system contents, path by path, as the sequential order of the
source. -/
theorem C7_calls_commute (env : Env)
    (font144 font32 font16 : FontSpec) (z144 z32 z16 : Nat)
    (bb144 bb32 bb16 : BBox)
    (hn144 : env.newImageErr 144 = none)
    (hn32 : env.newImageErr 32 = none)
    (hn16 : env.newImageErr 16 = none)
    (hf144 : fontSelect env 144 = .ok (font144, z144))
    (hf32 : fontSelect env 32 = .ok (font32, z32))
    (hf16 : fontSelect env 16 = .ok (font16, z16))
    (hb144 : env.textbboxRes "ST" font144 = .ok bb144)
    (hb32 : env.textbboxRes "ST" font32 = .ok bb32)
    (hb16 : env.textbboxRes "ST" font16 = .ok bb16)
    (hd : env.drawErr = none)
    (hs144 : env.saveErr "icon-144x144.png" = none)
    (hs32 : env.saveErr "icon-32x32.png" = none)
    (hs16 : env.saveErr "icon-16x16.png" = none) (s : S) :
    ∀ l, l.Perm icons →
      (runCalls env l s).1 = .ok () ∧
      ∀ k, (runCalls env l s).2.fs k = (runCalls env icons s).2.fs k := by
  intro l hl
  have e144 := create_icon_ok env 144 "icon-144x144.png" font144 z144 bb144
    hn144 hf144 hb144 hd hs144
  have e32 := create_icon_ok env 32 "icon-32x32.png" font32 z32 bb32
    hn32 hf32 hb32 hd hs32
  have e16 := create_icon_ok env 16 "icon-16x16.png" font16 z16 bb16
    hn16 hf16 hb16 hd hs16
  have hmem : l ∈ icons.permutations' := List.mem_permutations'.mpr hl
  have hperms : icons.permutations' =
      [[(144, "icon-144x144.png"), (32, "icon-32x32.png"), (16, "icon-16x16.png")],
       [(32, "icon-32x32.png"), (144, "icon-144x144.png"), (16, "icon-16x16.png")],
       [(32, "icon-32x32.png"), (16, "icon-16x16.png"), (144, "icon-144x144.png")],
       [(144, "icon-144x144.png"), (16, "icon-16x16.png"), (32, "icon-32x32.png")],
       [(16, "icon-16x16.png"), (144, "icon-144x144.png"), (32, "icon-32x32.png")],
       [(16, "icon-16x16.png"), (32, "icon-32x32.png"), (144, "icon-144x144.png")]] := by
    rfl
  rw [hperms] at hmem
  simp only [List.mem_cons, List.not_mem_nil, or_false] at hmem
  rcases hmem with rfl | rfl | rfl | rfl | rfl | rfl <;>
    refine ⟨by simp [runCalls, icons, e144, e32, e16], fun k => ?_⟩ <;>
    simp only [runCalls, icons, e144, e32, e16] <;>
    by_cases h144 : k = "icon-144x144.png" <;> by_cases h32 : k = "icon-32x32.png" <;>
    by_cases h16 : k = "icon-16x16.png" <;> simp_all [setFile]

/-- C7 witness: one non-source order of the three calls in the fully
successful environment yields the same files as the source order. -/
theorem C7_calls_commute_witness :
    (runCalls okEnv
       [(32, "icon-32x32.png"), (144, "icon-144x144.png"), (16, "icon-16x16.png")]
       s0).1 = .ok () ∧
    ∀ k,
      (runCalls okEnv
         [(32, "icon-32x32.png"), (144, "icon-144x144.png"), (16, "icon-16x16.png")]
         s0).2.fs k = (runCalls okEnv icons s0).2.fs k :=
  C7_calls_commute okEnv (.truetype arialPath 48) (.truetype arialPath 12)
    (.truetype arialPath 12) 48 12 12 ⟨0, 0, 10, 8⟩ ⟨0, 0, 10, 8⟩ ⟨0, 0, 10, 8⟩
    rfl rfl rfl rfl rfl rfl rfl rfl rfl rfl rfl rfl rfl s0
    [(32, "icon-32x32.png"), (144, "icon-144x144.png"), (16, "icon-16x16.png")]
    (by decide)

/-- C10: the draw offset compensates only for the width and height of the
measured bounding box, not for its origin.  Every white pixel of the icon
canvas lies in the ink box of the text, which is the box anchored at the
draw offset plus the bounding-box origin: it starts exactly
(bbox.left, bbox.top) away from the centered position, so the glyphs land
exactly at the centered position precisely when the origin is (0, 0). -/
theorem C10_origin_shift (env : Env) (size : Nat) (font : FontSpec) (bbox : BBox)
    (hm : ∀ u v : Int, env.mask "ST" font u v = true →
       bbox.left ≤ u ∧ u < bbox.right ∧ bbox.top ≤ v ∧ v < bbox.bottom) :
    (∀ i j : Int, (iconImage env size font bbox).px i j = colorWhite →
       (inkBox (drawOffset size bbox).1 (drawOffset size bbox).2 bbox).left ≤ i ∧
       i < (inkBox (drawOffset size bbox).1 (drawOffset size bbox).2 bbox).right ∧
       (inkBox (drawOffset size bbox).1 (drawOffset size bbox).2 bbox).top ≤ j ∧
       j < (inkBox (drawOffset size bbox).1 (drawOffset size bbox).2 bbox).bottom) ∧
    ((inkBox (drawOffset size bbox).1 (drawOffset size bbox).2 bbox).left =
       (drawOffset size bbox).1 + bbox.left ∧
     (inkBox (drawOffset size bbox).1 (drawOffset size bbox).2 bbox).top =
       (drawOffset size bbox).2 + bbox.top) ∧
    ((inkBox (drawOffset size bbox).1 (drawOffset size bbox).2 bbox).left =
        (drawOffset size bbox).1 ↔ bbox.left = 0) ∧
    ((inkBox (drawOffset size bbox).1 (drawOffset size bbox).2 bbox).top =
        (drawOffset size bbox).2 ↔ bbox.top = 0) := by
  refine ⟨fun i j h => ?_, ⟨rfl, rfl⟩, ?_, ?_⟩
  · have hmask : env.mask "ST" font (i - (drawOffset size bbox).1)
        (j - (drawOffset size bbox).2) = true := by
      by_contra hc
      rw [Bool.not_eq_true] at hc
      rw [iconImage, ImageDraw.text] at h
      dsimp at h
      rw [hc] at h
      simp [Image.new, color667eea, colorWhite] at h
    have hb := hm _ _ hmask
    unfold inkBox
    dsimp
    omega
  · unfold inkBox
    dsimp
    omega
  · unfold inkBox
    dsimp
    omega

/-- C10 witness: in the fully successful environment the measured box of
"ST" is (0, 0, 10, 8), whose origin is (0, 0), and the ink of the size-144
icon lands exactly at the centered position (67, 68). -/
theorem C10_origin_shift_witness :
    (∀ i j : Int,
       (iconImage okEnv 144 (.truetype arialPath 48) ⟨0, 0, 10, 8⟩).px i j = colorWhite →
       (inkBox (drawOffset 144 ⟨0, 0, 10, 8⟩).1 (drawOffset 144 ⟨0, 0, 10, 8⟩).2
          ⟨0, 0, 10, 8⟩).left ≤ i ∧
       i < (inkBox (drawOffset 144 ⟨0, 0, 10, 8⟩).1 (drawOffset 144 ⟨0, 0, 10, 8⟩).2
          ⟨0, 0, 10, 8⟩).right ∧
       (inkBox (drawOffset 144 ⟨0, 0, 10, 8⟩).1 (drawOffset 144 ⟨0, 0, 10, 8⟩).2
          ⟨0, 0, 10, 8⟩).top ≤ j ∧
       j < (inkBox (drawOffset 144 ⟨0, 0, 10, 8⟩).1 (drawOffset 144 ⟨0, 0, 10, 8⟩).2
          ⟨0, 0, 10, 8⟩).bottom) ∧
    ((inkBox (drawOffset 144 ⟨0, 0, 10, 8⟩).1 (drawOffset 144 ⟨0, 0, 10, 8⟩).2
        ⟨0, 0, 10, 8⟩).left =
       (drawOffset 144 ⟨0, 0, 10, 8⟩).1 + BBox.left ⟨0, 0, 10, 8⟩ ∧
     (inkBox (drawOffset 144 ⟨0, 0, 10, 8⟩).1 (drawOffset 144 ⟨0, 0, 10, 8⟩).2
        ⟨0, 0, 10, 8⟩).top =
       (drawOffset 144 ⟨0, 0, 10, 8⟩).2 + BBox.top ⟨0, 0, 10, 8⟩) ∧
    ((inkBox (drawOffset 144 ⟨0, 0, 10, 8⟩).1 (drawOffset 144 ⟨0, 0, 10, 8⟩).2
        ⟨0, 0, 10, 8⟩).left =
        (drawOffset 144 ⟨0, 0, 10, 8⟩).1 ↔ BBox.left ⟨0, 0, 10, 8⟩ = 0) ∧
    ((inkBox (drawOffset 144 ⟨0, 0, 10, 8⟩).1 (drawOffset 144 ⟨0, 0, 10, 8⟩).2
        ⟨0, 0, 10, 8⟩).top =
        (drawOffset 144 ⟨0, 0, 10, 8⟩).2 ↔ BBox.top ⟨0, 0, 10, 8⟩ = 0) :=
  C10_origin_shift okEnv 144 (.truetype arialPath 48) ⟨0, 0, 10, 8⟩
    (fun _ _ h => of_decide_eq_true h)

end CreateIcons
